import Mathlib

/-!
Verification of `pkg/cloud/packet/client.go` from the
cluster-api-provider-packet repository.

The Go source is shallowly embedded: every pure function is translated to a
Lean function; calls into vendored libraries (the `packngo` HTTP client, the
Go `text/template` engine, `net.ParseIP`) are modelled as oracles supplied in
an environment record, and the effect trace relevant to the claims (bootstrap
retrieval, device-creation attempts) is returned explicitly.
-/

set_option autoImplicit false

namespace CAPP

/-! ## Go string primitives used by the client -/

/-- The White_Space code points recognised by Go's `unicode.IsSpace`. -/
def goIsSpace (c : Char) : Bool :=
  let n := c.toNat
  n = 0x9 || n = 0xA || n = 0xB || n = 0xC || n = 0xD || n = 0x20 ||
  n = 0x85 || n = 0xA0 || n = 0x1680 || (0x2000 ≤ n && n ≤ 0x200A) ||
  n = 0x2028 || n = 0x2029 || n = 0x202F || n = 0x205F || n = 0x3000

/-- Go `strings.TrimSpace`: drop leading and trailing white space. -/
def trimSpace (s : String) : String :=
  String.mk (((s.data.dropWhile goIsSpace).reverse.dropWhile goIsSpace).reverse)

/-- Go `strings.Split` on a list of characters, for a one-character
separator: splitting the empty string yields one empty field. -/
def goSplitList (sep : Char) : List Char → List (List Char)
  | [] => [[]]
  | c :: rest =>
    let r := goSplitList sep rest
    if c = sep then [] :: r
    else
      match r with
      | [] => [[c]]
      | w :: ws => (c :: w) :: ws

/-- Go `strings.Split s sep` for a one-character separator `sep`
(the client only ever splits on a comma). -/
def goSplit (s : String) (sep : Char) : List String :=
  (goSplitList sep s.data).map String.mk

/-! ## Constants of the client source -/

def apiTokenVarName : String := "PACKET_API_KEY"

def clientName : String := "CAPP-v1alpha3"

def ipxeOS : String := "custom_ipxe"

/-- Modelled from the spec: the fixed control-plane marker tag declared in
`api/v1alpha3` (that package is not part of the sources provided; the spec
only requires a fixed literal distinct from the worker marker). -/
def ControlPlaneTag : String := "control-plane"

/-- Modelled from the spec: the fixed worker marker tag declared in
`api/v1alpha3` (not part of the sources provided; the spec only requires a
fixed literal distinct from the control-plane marker). -/
def WorkerTag : String := "worker"

/-! ## The packngo client wrapper -/

/-- The relevant state of a `packngo.Client`: the API key it authenticates
with (`NewClientWithAuth` stores the token, `NewDevice` reads it back via
`p.Client.APIKey`). -/
structure PacketClient where
  APIKey : String
  deriving DecidableEq, Repr

/-- Translation of `NewClient` from `client.go`: returns a client when the trimmed key is
non-empty, and `nil` (here `none`) otherwise. -/
def NewClient (packetAPIKey : String) : Option PacketClient :=
  let token := trimSpace packetAPIKey
  if token ≠ "" then some { APIKey := token } else none

/-- Translation of `GetClient` from `client.go`, as a function of the value of the
`PACKET_API_KEY` environment variable (`os.Getenv` returns the empty string
when the variable is unset).  The Go function returns the pair
`(*PacketClient, error)`. -/
def GetClient (envValue : String) : Option PacketClient × Option String :=
  if envValue = "" then
    (none, some ("env var " ++ apiTokenVarName ++ " is required"))
  else
    (NewClient envValue, none)

/-! ## packngo response shapes consumed by the client -/

namespace packngo

/-- Model of `packngo.IpAddressCommon`, restricted to the fields the client reads. -/
structure IpAddressCommon where
  Address : String
  Public : Bool
  deriving DecidableEq, Repr

/-- Model of `packngo.IPAddressAssignment`: embeds `IpAddressCommon`. -/
structure IPAddressAssignment where
  IpAddressCommon : IpAddressCommon
  deriving DecidableEq, Repr

/-- The promoted `Address` field of the embedded `IpAddressCommon`. -/
def IPAddressAssignment.Address (a : IPAddressAssignment) : String :=
  a.IpAddressCommon.Address

/-- Model of `packngo.Device`, restricted to the fields the client reads. -/
structure Device where
  ID : String
  Tags : List String
  Network : List IPAddressAssignment
  deriving DecidableEq, Repr

/-- Model of `packngo.DeviceCreateRequest`, restricted to the fields the client
sets. -/
structure DeviceCreateRequest where
  Hostname : String
  ProjectID : String
  Facility : List String
  BillingCycle : String
  Plan : String
  OS : String
  IPXEScriptURL : String
  Tags : List String
  UserData : String
  HardwareReservationID : String
  deriving DecidableEq, Repr

/-- Model of `packngo.IPAddressReservation`, restricted to the fields the client
reads.  Its Go zero value has empty `Address` and `nil` tags. -/
structure IPAddressReservation where
  Address : String
  Tags : List String
  deriving DecidableEq, Repr

/-- The zero value `var reservedIP packngo.IPAddressReservation`. -/
def IPAddressReservation.zero : IPAddressReservation :=
  { Address := "", Tags := [] }

/-- The constant `packngo.PublicIPv4`. -/
def PublicIPv4 : String := "public_ipv4"

/-- Model of `packngo.IPReservationRequest`, restricted to the fields the client
sets (`typ` stands for the Go field `Type`, which is a keyword here). -/
structure IPReservationRequest where
  typ : String
  Quantity : Nat
  Facility : String
  FailOnApprovalRequired : Bool
  Tags : List String
  deriving DecidableEq, Repr

/-- Model of `packngo.ListOptions` (no field of it is ever set by the client). -/
structure ListOptions where
  deriving DecidableEq, Repr

end packngo

/-! ## corev1 node addresses -/

namespace corev1

/-- The two `corev1.NodeAddressType` values used by the client. -/
inductive NodeAddressType where
  | NodeInternalIP
  | NodeExternalIP
  deriving DecidableEq, Repr

/-- Model of `corev1.NodeAddress` (`addrType` stands for the Go field `Type`, which
is a keyword here). -/
structure NodeAddress where
  addrType : NodeAddressType
  Address : String
  deriving DecidableEq, Repr

end corev1

/-! ## Machine scope and device-creation request -/

/-- The fields of `PacketMachine.Spec` read by `NewDevice`. -/
structure PacketMachineSpec where
  OS : String
  BillingCycle : String
  MachineType : String
  Facility : String
  IPXEUrl : String
  HardwareReservationID : String
  Tags : List String
  deriving DecidableEq, Repr

/-- The fields of `PacketCluster.Spec` read by `NewDevice`. -/
structure PacketClusterSpec where
  ProjectID : String
  Facility : String
  deriving DecidableEq, Repr

/-- The slice of `scope.MachineScope` consumed by `NewDevice`:
the machine and cluster specs, the machine name and Kubernetes version,
the control-plane test, and the outcome of `GetRawBootstrapData()`
(a call into the scope's secret lookup, modelled by its result). -/
structure MachineScope where
  packetMachineSpec : PacketMachineSpec
  packetClusterSpec : PacketClusterSpec
  name : String
  machineVersion : Option String
  isControlPlane : Bool
  getRawBootstrapData : Except String String
  deriving Repr

/-- Translation of `CreateDeviceRequest` from `client.go`. -/
structure CreateDeviceRequest where
  ExtraTags : List String
  MachineScope : MachineScope
  ControlPlaneEndpoint : String
  deriving Repr

/-- Translation of `pointer.StringPtrDerefOr` from `k8s.io/utils/pointer`. -/
def stringPtrDerefOr (p : Option String) (d : String) : String :=
  p.getD d

/-- Oracles for the external calls `NewDevice` makes: the `text/template`
parse and execute steps and the `Devices.Create` remote call.  Each oracle
returns the outcome the external collaborator produced. -/
structure DeviceEnv where
  tmplParse : String → Option String
  tmplExec : String → List (String × String) → Except String String
  create : packngo.DeviceCreateRequest → Except String packngo.Device

/-- The distinguishable errors `NewDevice` can return. -/
inductive DeviceErr where
  | invalidRequest
  | bootstrapErr (msg : String)
  | templateParseErr (msg : String)
  | templateExecErr (msg : String)
  | remoteErr (msg : String)
  deriving DecidableEq, Repr

/-- The outcome of `NewDevice`: the Go return pair `(device, err)` together
with the effect trace the claims talk about — whether bootstrap data was
retrieved, and the device-creation requests sent to the remote API, in
order. -/
structure NewDeviceResult where
  device : Option packngo.Device
  err : Option DeviceErr
  bootstrapRetrieved : Bool
  createAttempts : List packngo.DeviceCreateRequest
  deriving Repr

/-- The `userDataValues` map built by `NewDevice`, in insertion order:
`kubernetesVersion` always, and for control-plane machines the API key and,
when non-empty, the control-plane endpoint. -/
def userDataValuesFor (p : PacketClient) (req : CreateDeviceRequest) :
    List (String × String) :=
  let base := [("kubernetesVersion",
    stringPtrDerefOr req.MachineScope.machineVersion "")]
  if req.MachineScope.isControlPlane then
    base ++ [("apiKey", p.APIKey)] ++
      (if req.ControlPlaneEndpoint ≠ "" then
        [("controlPlaneEndpoint", req.ControlPlaneEndpoint)]
      else [])
  else base

/-- The tag list `NewDevice` places on the creation request: declared
machine tags, then the extra tags, then the role marker. -/
def tagsFor (req : CreateDeviceRequest) : List String :=
  let tags := req.MachineScope.packetMachineSpec.Tags ++ req.ExtraTags
  if req.MachineScope.isControlPlane then tags ++ [ControlPlaneTag]
  else tags ++ [WorkerTag]

/-- Facility resolution: the machine-level override wins over the
cluster-level default. -/
def facilityFor (req : CreateDeviceRequest) : String :=
  if req.MachineScope.packetMachineSpec.Facility ≠ "" then
    req.MachineScope.packetMachineSpec.Facility
  else req.MachineScope.packetClusterSpec.Facility

/-- The `serverCreateOpts` value built by `NewDevice` (its
`HardwareReservationID` starts at the Go zero value and is overwritten by
the fallback loop). -/
def buildCreateOpts (req : CreateDeviceRequest) (userData : String) :
    packngo.DeviceCreateRequest :=
  { Hostname := req.MachineScope.name
    ProjectID := req.MachineScope.packetClusterSpec.ProjectID
    Facility := [facilityFor req]
    BillingCycle := req.MachineScope.packetMachineSpec.BillingCycle
    Plan := req.MachineScope.packetMachineSpec.MachineType
    OS := req.MachineScope.packetMachineSpec.OS
    IPXEScriptURL := req.MachineScope.packetMachineSpec.IPXEUrl
    Tags := tagsFor req
    UserData := userData
    HardwareReservationID := "" }

/-- Overwriting the reservation field of the creation request, as each loop
iteration does. -/
def setReservation (opts : packngo.DeviceCreateRequest) (resID : String) :
    packngo.DeviceCreateRequest :=
  { opts with HardwareReservationID := resID }

/-- The reservation fallback loop of `NewDevice`: try `Devices.Create` once
per reservation ID, remembering the last error; stop at the first success.
Returns the Go pair `(device, lastErr)` together with the list of requests
actually sent. -/
def reservationLoop (create : packngo.DeviceCreateRequest → Except String packngo.Device)
    (opts : packngo.DeviceCreateRequest) (lastErr : Option String) :
    List String →
      (Option packngo.Device × Option String) × List packngo.DeviceCreateRequest
  | [] => ((none, lastErr), [])
  | resID :: rest =>
    let opts' := setReservation opts resID
    match create opts' with
    | .error e =>
      let r := reservationLoop create opts (some e) rest
      (r.1, opts' :: r.2)
    | .ok dev => ((some dev, none), [opts'])

/-- Translation of `NewDevice` from `client.go`, with its effect trace. -/
def NewDevice (p : PacketClient) (env : DeviceEnv) (req : CreateDeviceRequest) :
    NewDeviceResult :=
  if req.MachineScope.packetMachineSpec.IPXEUrl ≠ "" ∧
      req.MachineScope.packetMachineSpec.OS ≠ ipxeOS then
    { device := none, err := some .invalidRequest,
      bootstrapRetrieved := false, createAttempts := [] }
  else
    match req.MachineScope.getRawBootstrapData with
    | .error e =>
      { device := none, err := some (.bootstrapErr e),
        bootstrapRetrieved := true, createAttempts := [] }
    | .ok userDataRaw =>
      match env.tmplParse userDataRaw with
      | some e =>
        { device := none, err := some (.templateParseErr e),
          bootstrapRetrieved := true, createAttempts := [] }
      | none =>
        match env.tmplExec userDataRaw (userDataValuesFor p req) with
        | .error e =>
          { device := none, err := some (.templateExecErr e),
            bootstrapRetrieved := true, createAttempts := [] }
        | .ok userData =>
          let serverCreateOpts := buildCreateOpts req userData
          let reservationIDs :=
            goSplit req.MachineScope.packetMachineSpec.HardwareReservationID ','
          if reservationIDs.length = 0 then
            match env.create serverCreateOpts with
            | .ok dev =>
              { device := some dev, err := none,
                bootstrapRetrieved := true,
                createAttempts := [serverCreateOpts] }
            | .error e =>
              { device := none, err := some (.remoteErr e),
                bootstrapRetrieved := true,
                createAttempts := [serverCreateOpts] }
          else
            let r := reservationLoop env.create serverCreateOpts none reservationIDs
            { device := r.1.1, err := r.1.2.map .remoteErr,
              bootstrapRetrieved := true, createAttempts := r.2 }

/-! ## Device queries -/

/-- The loop body of `GetDeviceAddresses`: classify one network entry. -/
def classifyAddress (addr : packngo.IPAddressAssignment) : corev1.NodeAddress :=
  { addrType :=
      if addr.IpAddressCommon.Public then .NodeExternalIP else .NodeInternalIP
    Address := addr.Address }

/-- The accumulation loop of `GetDeviceAddresses` over `device.Network`. -/
def networkToAddresses : List packngo.IPAddressAssignment → List corev1.NodeAddress
  | [] => []
  | addr :: rest => classifyAddress addr :: networkToAddresses rest

/-- Translation of `GetDeviceAddresses` from `client.go`: the Go pair `(addrs, err)`. -/
def GetDeviceAddresses (device : packngo.Device) :
    List corev1.NodeAddress × Option String :=
  (networkToAddresses device.Network, none)

/-! ## IP reservation operations -/

/-- Translation of `generateElasticIPIdentifier` from `client.go`
(`fmt.Sprintf("cluster-api-provider-packet:cluster-id:%s", name)`). -/
def generateElasticIPIdentifier (name : String) : String :=
  "cluster-api-provider-packet:cluster-id:" ++ name

/-- Model of `net.IP`: Go represents an IP address as a byte slice.  Only produced
by the `parseIP` oracle, never inspected by the client. -/
structure IP where
  bytes : List Nat
  deriving DecidableEq, Repr

/-- Oracles for the external calls the IP operations make: the
`ProjectIPs.Request` and `ProjectIPs.List` remote calls (the former returns
the reservation, the HTTP status code of the response, and the error value)
and the Go standard-library `net.ParseIP`. -/
structure IPEnv where
  requestIP : String → packngo.IPReservationRequest →
    packngo.IPAddressReservation × Nat × Option String
  listIPs : String → packngo.ListOptions →
    Except String (List packngo.IPAddressReservation)
  parseIP : String → Option IP

/-- The constant `http.StatusUnprocessableEntity`. -/
def statusUnprocessableEntity : Nat := 422

/-- The quota-exceeded message `CreateIP` produces on an
unprocessable-entity status. -/
def quotaErrorMessage : String :=
  "Could not create an Elastic IP due to quota limits on the account. Please contact Packet support."

/-- Translation of `CreateIP` from `client.go`. -/
def CreateIP (env : IPEnv) (namespace_ clusterName projectID facility : String) :
    Except String IP :=
  let req : packngo.IPReservationRequest :=
    { typ := packngo.PublicIPv4
      Quantity := 1
      Facility := facility
      FailOnApprovalRequired := true
      Tags := [generateElasticIPIdentifier clusterName] }
  let (r, statusCode, err) := env.requestIP projectID req
  match err with
  | some e => .error e
  | none =>
    if statusCode = statusUnprocessableEntity then
      .error quotaErrorMessage
    else
      match env.parseIP r.Address with
      | none => .error ("impossible to parse IP: " ++ r.Address ++ ". IP not valid.")
      | some ip => .ok ip

/-- The errors `GetIPByClusterIdentifier` can return: the listing error
passed through, or the distinguished `ErrControlPlanEndpointNotFound`
sentinel (the misspelling is the source's). -/
inductive IPLookupErr where
  | remoteErr (msg : String)
  | ErrControlPlanEndpointNotFound
  deriving DecidableEq, Repr

/-- The inner loop of `GetIPByClusterIdentifier`: does the tag list hold
the identifier? -/
def tagsContain (tag : String) : List String → Bool
  | [] => false
  | v :: rest => if v = tag then true else tagsContain tag rest

/-- The outer loop of `GetIPByClusterIdentifier`: the first reservation
whose tags hold the identifier. -/
def findIPByTag (tag : String) :
    List packngo.IPAddressReservation → Option packngo.IPAddressReservation
  | [] => none
  | r :: rest => if tagsContain tag r.Tags then some r else findIPByTag tag rest

/-- Translation of `GetIPByClusterIdentifier` from `client.go`: the Go pair
`(reservation, err)`, where the reservation is the zero value whenever an
error is returned. -/
def GetIPByClusterIdentifier (env : IPEnv) (namespace_ name projectID : String) :
    packngo.IPAddressReservation × Option IPLookupErr :=
  let listOpts : packngo.ListOptions := {}
  match env.listIPs projectID listOpts with
  | .error e => (packngo.IPAddressReservation.zero, some (.remoteErr e))
  | .ok reservedIPs =>
    match findIPByTag (generateElasticIPIdentifier name) reservedIPs with
    | some reservedIP => (reservedIP, none)
    | none =>
      (packngo.IPAddressReservation.zero, some .ErrControlPlanEndpointNotFound)

/-! ## Basic lemmas about the string primitives -/

theorem goSplitList_ne_nil (sep : Char) (l : List Char) :
    goSplitList sep l ≠ [] := by
  induction l with
  | nil => simp [goSplitList]
  | cons c rest ih =>
    simp only [goSplitList]
    split
    · simp
    · match h : goSplitList sep rest with
      | [] => simp
      | w :: ws => simp

theorem goSplit_ne_nil (s : String) (sep : Char) : goSplit s sep ≠ [] := by
  simp only [goSplit, ne_eq, List.map_eq_nil_iff]
  exact goSplitList_ne_nil sep s.data

theorem trimSpace_of_all_space (s : String) (h : s.data.all goIsSpace) :
    trimSpace s = "" := by
  have hdrop : s.data.dropWhile goIsSpace = [] := by
    rw [List.dropWhile_eq_nil_iff]
    intro x hx
    exact List.all_eq_true.mp h x hx
  simp [trimSpace, hdrop]

/-! ## Lemmas about the reservation fallback loop -/

theorem reservationLoop_success
    (create : packngo.DeviceCreateRequest → Except String packngo.Device)
    (opts : packngo.DeviceCreateRequest) :
    ∀ (ids : List String) (lastErr : Option String) (k : Nat)
      (d : packngo.Device), k < ids.length →
      (∀ j, j < k → ∃ e, create (setReservation opts (ids.getD j "")) = .error e) →
      create (setReservation opts (ids.getD k "")) = .ok d →
      reservationLoop create opts lastErr ids =
        ((some d, none), (ids.take (k + 1)).map (setReservation opts)) := by
  intro ids
  induction ids with
  | nil => intro lastErr k d hk; exact absurd hk (by simp)
  | cons a rest ih =>
    intro lastErr k d hk hfail hsucc
    match k with
    | 0 =>
      simp only [List.getD, List.get?_cons_zero, Option.getD_some] at hsucc
      simp [reservationLoop, hsucc]
    | k' + 1 =>
      obtain ⟨e, he⟩ := hfail 0 (Nat.succ_pos k')
      simp only [List.getD, List.get?_cons_zero, Option.getD_some] at he
      have hrest := ih (some e) k' d (Nat.lt_of_succ_lt_succ hk)
        (fun j hj => by
          have := hfail (j + 1) (Nat.succ_lt_succ hj)
          simpa using this)
        (by simpa using hsucc)
      simp [reservationLoop, he, hrest]

theorem reservationLoop_allFail
    (create : packngo.DeviceCreateRequest → Except String packngo.Device)
    (opts : packngo.DeviceCreateRequest) :
    ∀ (ids : List String) (lastErr : Option String) (errf : Nat → String),
      ids ≠ [] →
      (∀ j, j < ids.length →
        create (setReservation opts (ids.getD j "")) = .error (errf j)) →
      reservationLoop create opts lastErr ids =
        ((none, some (errf (ids.length - 1))), ids.map (setReservation opts)) := by
  intro ids
  induction ids with
  | nil => intro lastErr errf hne; exact absurd rfl hne
  | cons a rest ih =>
    intro lastErr errf _ hfail
    have he : create (setReservation opts a) = .error (errf 0) := by
      have := hfail 0 (by simp)
      simpa using this
    match hrest : rest with
    | [] => simp [reservationLoop, he]
    | b :: rest' =>
      have hr := ih (some (errf 0)) (fun j => errf (j + 1))
        (by simp)
        (fun j hj => by
          have := hfail (j + 1) (by simpa using Nat.succ_lt_succ hj)
          simpa using this)
      rw [← hrest] at hr ⊢
      have hlen : rest.length - 1 + 1 = rest.length := by
        rw [hrest]; simp
      simp only [reservationLoop, he, hr, hlen]
      simp [hrest]

theorem reservationLoop_mem_tags
    (create : packngo.DeviceCreateRequest → Except String packngo.Device)
    (opts : packngo.DeviceCreateRequest) :
    ∀ (ids : List String) (lastErr : Option String)
      (r : packngo.DeviceCreateRequest),
      r ∈ (reservationLoop create opts lastErr ids).2 → r.Tags = opts.Tags := by
  intro ids
  induction ids with
  | nil => intro lastErr r hr; simp [reservationLoop] at hr
  | cons a rest ih =>
    intro lastErr r hr
    simp only [reservationLoop] at hr
    rcases h : create (setReservation opts a) with e | dev
    · rw [h] at hr
      simp only [List.mem_cons] at hr
      rcases hr with rfl | hr
      · rfl
      · exact ih (some e) r hr
    · rw [h] at hr
      simp only [List.mem_singleton] at hr
      subst hr
      rfl

/-- Once the validation, bootstrap retrieval and templating steps succeed,
`NewDevice` is the reservation fallback loop over the comma-split of the
declared hardware-reservation-ID field. -/
theorem NewDevice_eq_loop (p : PacketClient) (env : DeviceEnv)
    (req : CreateDeviceRequest) (ud rendered : String)
    (hval : ¬(req.MachineScope.packetMachineSpec.IPXEUrl ≠ "" ∧
      req.MachineScope.packetMachineSpec.OS ≠ ipxeOS))
    (hboot : req.MachineScope.getRawBootstrapData = .ok ud)
    (hparse : env.tmplParse ud = none)
    (hexec : env.tmplExec ud (userDataValuesFor p req) = .ok rendered) :
    NewDevice p env req =
      (let r := reservationLoop env.create (buildCreateOpts req rendered) none
        (goSplit req.MachineScope.packetMachineSpec.HardwareReservationID ',')
       { device := r.1.1, err := r.1.2.map DeviceErr.remoteErr,
         bootstrapRetrieved := true, createAttempts := r.2 }) := by
  have hlen :
      ¬((goSplit req.MachineScope.packetMachineSpec.HardwareReservationID ',').length = 0) := by
    simp only [List.length_eq_zero]
    exact goSplit_ne_nil _ _
  simp only [NewDevice, if_neg hval, hboot, hparse, hexec, if_neg hlen]

/-! ## Lemmas about the lookup loops -/

theorem tagsContain_iff_mem (tag : String) (l : List String) :
    tagsContain tag l = true ↔ tag ∈ l := by
  induction l with
  | nil => simp [tagsContain]
  | cons v rest ih =>
    simp only [tagsContain]
    by_cases hv : v = tag
    · simp [hv]
    · simp [hv, ih, Ne.symm hv]

theorem findIPByTag_eq_find (tag : String)
    (l : List packngo.IPAddressReservation) :
    findIPByTag tag l = l.find? (fun r => decide (tag ∈ r.Tags)) := by
  induction l with
  | nil => simp [findIPByTag]
  | cons r rest ih =>
    simp only [findIPByTag]
    by_cases hr : tagsContain tag r.Tags = true
    · rw [if_pos hr, List.find?_cons_of_pos]
      simpa using (tagsContain_iff_mem tag r.Tags).mp hr
    · rw [if_neg hr, List.find?_cons_of_neg, ih]
      simpa using fun hmem => hr ((tagsContain_iff_mem tag r.Tags).mpr hmem)

theorem networkToAddresses_eq_map (l : List packngo.IPAddressAssignment) :
    networkToAddresses l = l.map classifyAddress := by
  induction l with
  | nil => rfl
  | cons a rest ih => simp [networkToAddresses, ih]

/-- Every request the fallback loop of `NewDevice` actually sends carries
the tag list computed up front. -/
theorem newDevice_attempt_tags (p : PacketClient) (env : DeviceEnv)
    (req : CreateDeviceRequest) (r : packngo.DeviceCreateRequest)
    (hr : r ∈ (NewDevice p env req).createAttempts) :
    r.Tags = tagsFor req := by
  unfold NewDevice at hr
  split at hr
  · simp at hr
  · split at hr
    · simp at hr
    · split at hr
      · simp at hr
      · split at hr
        · simp at hr
        · simp only at hr
          split at hr
          · split at hr <;>
              (simp only [List.mem_singleton] at hr; subst hr; rfl)
          · exact reservationLoop_mem_tags env.create _ _ none r hr

/-! ## Concrete fixtures used by counterexamples and witnesses -/

def sampleMachineSpec : PacketMachineSpec :=
  { OS := "ubuntu_20_04", BillingCycle := "hourly", MachineType := "c3.small.x86"
    Facility := "", IPXEUrl := "", HardwareReservationID := "", Tags := [] }

def sampleClusterSpec : PacketClusterSpec :=
  { ProjectID := "proj-1", Facility := "ams1" }

def sampleScope : MachineScope :=
  { packetMachineSpec := sampleMachineSpec
    packetClusterSpec := sampleClusterSpec
    name := "machine-0"
    machineVersion := some "v1.20.4"
    isControlPlane := false
    getRawBootstrapData := .ok "#cloud-config" }

def sampleClient : PacketClient := { APIKey := "token-1" }

def sampleEnv : DeviceEnv :=
  { tmplParse := fun _ => none
    tmplExec := fun s _ => .ok s
    create := fun r => .ok { ID := "dev-1", Tags := r.Tags, Network := [] } }

def sampleReq : CreateDeviceRequest :=
  { ExtraTags := [], MachineScope := sampleScope, ControlPlaneEndpoint := "" }

/-! ## Claim theorems -/

/-- C5: every credential whose trimmed form is non-empty yields a client
from `NewClient`; the empty credential and every all-whitespace credential
yield `none` (and `NewClient` has no error result at all: its return type
is just the optional client). -/
theorem newClient_credential_check (s : String) :
    (trimSpace s ≠ "" → (NewClient s).isSome = true) ∧
    (s.data.all goIsSpace = true → NewClient s = none) := by
  constructor
  · intro h
    simp [NewClient, h]
  · intro h
    simp [NewClient, trimSpace_of_all_space s h]

theorem newClient_credential_check_witness :
    (trimSpace "abc" ≠ "" ∧ (NewClient "abc").isSome = true) ∧
    (" \t ".data.all goIsSpace = true ∧ NewClient " \t " = none) :=
  ⟨⟨by decide, (newClient_credential_check "abc").1 (by decide)⟩,
   ⟨by decide, (newClient_credential_check " \t ").2 (by decide)⟩⟩

/-- C9: a non-empty all-whitespace credential environment value passes the
emptiness check of `GetClient` (which does not trim) yet makes `NewClient`
(which trims) return no client, so `GetClient` returns neither a client nor
an error. -/
theorem getClient_whitespace_credential (v : String) (hne : v ≠ "")
    (hsp : v.data.all goIsSpace = true) :
    GetClient v = (none, none) := by
  simp [GetClient, hne, NewClient, trimSpace_of_all_space v hsp]

theorem getClient_whitespace_credential_witness :
    GetClient "  " = (none, none) :=
  getClient_whitespace_credential "  " (by decide) (by decide)

/-- C8: `GetDeviceAddresses` maps each network entry of the device, in
order, to an address classified external when the `Public` flag is set and
internal otherwise, and never returns an error. -/
theorem getDeviceAddresses_classifies (device : packngo.Device) :
    GetDeviceAddresses device =
      (device.Network.map (fun addr =>
        { addrType := if addr.IpAddressCommon.Public then .NodeExternalIP
            else .NodeInternalIP
          Address := addr.IpAddressCommon.Address }), none) := by
  unfold GetDeviceAddresses
  rw [networkToAddresses_eq_map]
  rfl

/-- C10: the namespace parameter of `CreateIP` and of
`GetIPByClusterIdentifier` is unused — two calls differing only in it and
observing the same remote responses return identical results. -/
theorem ip_namespace_unused (env : IPEnv)
    (ns1 ns2 clusterName name projectID facility : String) :
    CreateIP env ns1 clusterName projectID facility =
      CreateIP env ns2 clusterName projectID facility ∧
    GetIPByClusterIdentifier env ns1 name projectID =
      GetIPByClusterIdentifier env ns2 name projectID :=
  ⟨rfl, rfl⟩

/-- C4: when the iPXE URL is set and the OS is not the `custom_ipxe`
sentinel, `NewDevice` fails with the invalid-request error before
retrieving bootstrap data and before any remote creation call. -/
theorem newDevice_ipxe_validation (p : PacketClient) (env : DeviceEnv)
    (req : CreateDeviceRequest)
    (hurl : req.MachineScope.packetMachineSpec.IPXEUrl ≠ "")
    (hos : req.MachineScope.packetMachineSpec.OS ≠ ipxeOS) :
    NewDevice p env req =
      { device := none, err := some .invalidRequest,
        bootstrapRetrieved := false, createAttempts := [] } := by
  unfold NewDevice
  rw [if_pos ⟨hurl, hos⟩]

def reqIpxe : CreateDeviceRequest :=
  { ExtraTags := []
    MachineScope :=
      { sampleScope with packetMachineSpec :=
          { sampleMachineSpec with IPXEUrl := "http://boot.example/script.ipxe" } }
    ControlPlaneEndpoint := "" }

theorem newDevice_ipxe_validation_witness :
    NewDevice sampleClient sampleEnv reqIpxe =
      { device := none, err := some .invalidRequest,
        bootstrapRetrieved := false, createAttempts := [] } :=
  newDevice_ipxe_validation sampleClient sampleEnv reqIpxe (by decide) (by decide)

def reqBothMarkers : CreateDeviceRequest :=
  { ExtraTags := []
    MachineScope :=
      { sampleScope with
          isControlPlane := true
          packetMachineSpec := { sampleMachineSpec with Tags := [WorkerTag] } }
    ControlPlaneEndpoint := "" }

/-- C1 counterexample: a control-plane machine whose declared tags already
contain the worker marker — the one request `NewDevice` sends carries both
markers, so the tag set does not contain exactly one of them. -/
theorem newDevice_role_tags_counterexample :
    (NewDevice sampleClient sampleEnv reqBothMarkers).createAttempts.map
      (fun r => (r.Tags.contains ControlPlaneTag, r.Tags.contains WorkerTag)) =
      [(true, true)] := by
  decide

/-- C1 (amended): every request `NewDevice` sends carries the marker of the
owning machine's role; it excludes the opposite marker provided neither the
declared machine tags nor the extra tags contain that opposite marker. -/
theorem newDevice_role_tags (p : PacketClient) (env : DeviceEnv)
    (req : CreateDeviceRequest) (r : packngo.DeviceCreateRequest)
    (hr : r ∈ (NewDevice p env req).createAttempts) :
    (req.MachineScope.isControlPlane = true →
      ControlPlaneTag ∈ r.Tags ∧
      (WorkerTag ∉ req.MachineScope.packetMachineSpec.Tags ++ req.ExtraTags →
        WorkerTag ∉ r.Tags)) ∧
    (req.MachineScope.isControlPlane = false →
      WorkerTag ∈ r.Tags ∧
      (ControlPlaneTag ∉ req.MachineScope.packetMachineSpec.Tags ++ req.ExtraTags →
        ControlPlaneTag ∉ r.Tags)) := by
  have htags := newDevice_attempt_tags p env req r hr
  have hne : ControlPlaneTag ≠ WorkerTag := by decide
  constructor
  · intro hcp
    have ht : r.Tags =
        (req.MachineScope.packetMachineSpec.Tags ++ req.ExtraTags) ++
          [ControlPlaneTag] := by
      rw [htags]; simp [tagsFor, hcp]
    rw [ht]
    refine ⟨by simp, ?_⟩
    intro hnot hmem
    rcases List.mem_append.mp hmem with h | h
    · exact hnot h
    · exact hne (List.mem_singleton.mp h).symm
  · intro hw
    have ht : r.Tags =
        (req.MachineScope.packetMachineSpec.Tags ++ req.ExtraTags) ++
          [WorkerTag] := by
      rw [htags]; simp [tagsFor, hw]
    rw [ht]
    refine ⟨by simp, ?_⟩
    intro hnot hmem
    rcases List.mem_append.mp hmem with h | h
    · exact hnot h
    · exact hne (List.mem_singleton.mp h)

/-- The single creation request `NewDevice` sends for `sampleReq`. -/
def sampleAttempt : packngo.DeviceCreateRequest :=
  setReservation (buildCreateOpts sampleReq "#cloud-config") ""

theorem newDevice_role_tags_witness :
    WorkerTag ∈ sampleAttempt.Tags ∧ ControlPlaneTag ∉ sampleAttempt.Tags := by
  have h := newDevice_role_tags sampleClient sampleEnv sampleReq sampleAttempt
    (by decide)
  exact ⟨(h.2 rfl).1, (h.2 rfl).2 (by decide)⟩

theorem reservationLoop_singleton
    (create : packngo.DeviceCreateRequest → Except String packngo.Device)
    (opts : packngo.DeviceCreateRequest) (lastErr : Option String)
    (resID : String) :
    (reservationLoop create opts lastErr [resID]).2 =
      [setReservation opts resID] := by
  cases h : create (setReservation opts resID) <;> simp [reservationLoop, h]

theorem reservationLoop_attempts_ne_nil
    (create : packngo.DeviceCreateRequest → Except String packngo.Device)
    (opts : packngo.DeviceCreateRequest) (lastErr : Option String)
    (ids : List String) (h : ids ≠ []) :
    (reservationLoop create opts lastErr ids).2 ≠ [] := by
  cases ids with
  | nil => exact absurd rfl h
  | cons a rest =>
    cases hc : create (setReservation opts a) <;> simp [reservationLoop, hc]

/-- C3: splitting any hardware-reservation-ID field on commas yields at
least one entry, so the empty-list branch of `NewDevice` is unreachable:
whenever `NewDevice` reaches device creation it attempts it at least once
through the fallback loop, and an empty field yields exactly one attempt
whose reservation field is the empty string. -/
theorem newDevice_split_nonempty :
    (∀ s : String, 1 ≤ (goSplit s ',').length) ∧
    (∀ (p : PacketClient) (env : DeviceEnv) (req : CreateDeviceRequest)
      (ud rendered : String),
      ¬(req.MachineScope.packetMachineSpec.IPXEUrl ≠ "" ∧
        req.MachineScope.packetMachineSpec.OS ≠ ipxeOS) →
      req.MachineScope.getRawBootstrapData = .ok ud →
      env.tmplParse ud = none →
      env.tmplExec ud (userDataValuesFor p req) = .ok rendered →
      1 ≤ (NewDevice p env req).createAttempts.length ∧
      (req.MachineScope.packetMachineSpec.HardwareReservationID = "" →
        (NewDevice p env req).createAttempts =
          [setReservation (buildCreateOpts req rendered) ""])) := by
  constructor
  · intro s
    exact List.length_pos.mpr (goSplit_ne_nil s ',')
  · intro p env req ud rendered hval hboot hparse hexec
    rw [NewDevice_eq_loop p env req ud rendered hval hboot hparse hexec]
    dsimp only
    constructor
    · exact List.length_pos.mpr
        (reservationLoop_attempts_ne_nil env.create _ none _ (goSplit_ne_nil _ _))
    · intro hempty
      rw [hempty]
      exact reservationLoop_singleton env.create _ none ""

theorem newDevice_split_nonempty_witness :
    1 ≤ (goSplit "" ',').length ∧
    (NewDevice sampleClient sampleEnv sampleReq).createAttempts =
      [setReservation (buildCreateOpts sampleReq "#cloud-config") ""] :=
  ⟨newDevice_split_nonempty.1 "",
   (newDevice_split_nonempty.2 sampleClient sampleEnv sampleReq
      "#cloud-config" "#cloud-config" (by decide) rfl rfl rfl).2 rfl⟩

/-- C2: over the comma-split entries of the hardware-reservation-ID field,
`NewDevice` tries creation in order: when the first `k` attempts fail and
attempt `k+1` succeeds it returns that device, having sent exactly the
first `k+1` requests; when every attempt fails it returns the error of the
last attempt. -/
theorem newDevice_reservation_fallback (p : PacketClient) (env : DeviceEnv)
    (req : CreateDeviceRequest) (ud rendered : String)
    (hval : ¬(req.MachineScope.packetMachineSpec.IPXEUrl ≠ "" ∧
      req.MachineScope.packetMachineSpec.OS ≠ ipxeOS))
    (hboot : req.MachineScope.getRawBootstrapData = .ok ud)
    (hparse : env.tmplParse ud = none)
    (hexec : env.tmplExec ud (userDataValuesFor p req) = .ok rendered) :
    (∀ (k : Nat) (d : packngo.Device),
      k < (goSplit req.MachineScope.packetMachineSpec.HardwareReservationID ',').length →
      (∀ j, j < k → ∃ e, env.create (setReservation (buildCreateOpts req rendered)
        ((goSplit req.MachineScope.packetMachineSpec.HardwareReservationID ',').getD j ""))
          = .error e) →
      env.create (setReservation (buildCreateOpts req rendered)
        ((goSplit req.MachineScope.packetMachineSpec.HardwareReservationID ',').getD k ""))
        = .ok d →
      (NewDevice p env req).device = some d ∧
      (NewDevice p env req).err = none ∧
      (NewDevice p env req).createAttempts =
        ((goSplit req.MachineScope.packetMachineSpec.HardwareReservationID ',').take (k + 1)).map
          (setReservation (buildCreateOpts req rendered))) ∧
    (∀ errf : Nat → String,
      (∀ j, j < (goSplit req.MachineScope.packetMachineSpec.HardwareReservationID ',').length →
        env.create (setReservation (buildCreateOpts req rendered)
          ((goSplit req.MachineScope.packetMachineSpec.HardwareReservationID ',').getD j ""))
          = .error (errf j)) →
      (NewDevice p env req).device = none ∧
      (NewDevice p env req).err = some (.remoteErr (errf
        ((goSplit req.MachineScope.packetMachineSpec.HardwareReservationID ',').length - 1))) ∧
      (NewDevice p env req).createAttempts =
        (goSplit req.MachineScope.packetMachineSpec.HardwareReservationID ',').map
          (setReservation (buildCreateOpts req rendered))) := by
  have hD := NewDevice_eq_loop p env req ud rendered hval hboot hparse hexec
  constructor
  · intro k d hk hfail hsucc
    have hloop := reservationLoop_success env.create (buildCreateOpts req rendered)
      (goSplit req.MachineScope.packetMachineSpec.HardwareReservationID ',') none
      k d hk hfail hsucc
    rw [hD]
    dsimp only
    rw [hloop]
    exact ⟨rfl, rfl, rfl⟩
  · intro errf hfail
    have hloop := reservationLoop_allFail env.create (buildCreateOpts req rendered)
      (goSplit req.MachineScope.packetMachineSpec.HardwareReservationID ',') none
      errf (goSplit_ne_nil _ _) hfail
    rw [hD]
    dsimp only
    rw [hloop]
    exact ⟨rfl, rfl, rfl⟩

def envFallback : DeviceEnv :=
  { tmplParse := fun _ => none
    tmplExec := fun s _ => .ok s
    create := fun r =>
      if r.HardwareReservationID = "res-a" then .error "reservation in use"
      else .ok { ID := "dev-2", Tags := r.Tags, Network := [] } }

def reqFallback : CreateDeviceRequest :=
  { ExtraTags := []
    MachineScope :=
      { sampleScope with packetMachineSpec :=
          { sampleMachineSpec with HardwareReservationID := "res-a,res-b" } }
    ControlPlaneEndpoint := "" }

def devFallback : packngo.Device :=
  { ID := "dev-2", Tags := tagsFor reqFallback, Network := [] }

theorem newDevice_reservation_fallback_witness :
    (NewDevice sampleClient envFallback reqFallback).device = some devFallback ∧
    (NewDevice sampleClient envFallback reqFallback).err = none ∧
    (NewDevice sampleClient envFallback reqFallback).createAttempts =
      ((goSplit "res-a,res-b" ',').take 2).map
        (setReservation (buildCreateOpts reqFallback "#cloud-config")) :=
  (newDevice_reservation_fallback sampleClient envFallback reqFallback
      "#cloud-config" "#cloud-config" (by decide) rfl rfl rfl).1 1 devFallback
    (by decide)
    (fun j hj => by
      have hj0 : j = 0 := Nat.lt_one_iff.mp hj
      subst hj0
      exact ⟨"reservation in use", rfl⟩)
    rfl

/-- C7: when listing succeeds, `GetIPByClusterIdentifier` returns the first
listed reservation whose tag list contains the exact string
`cluster-api-provider-packet:cluster-id:` followed by the cluster name
(which is what `generateElasticIPIdentifier` produces), and fails with the
distinguished not-found sentinel when no reservation carries that tag. -/
theorem getIPByClusterIdentifier_first_match (env : IPEnv)
    (ns name projectID : String) (L : List packngo.IPAddressReservation)
    (hlist : env.listIPs projectID {} = .ok L) :
    generateElasticIPIdentifier name =
      "cluster-api-provider-packet:cluster-id:" ++ name ∧
    (∀ r, L.find?
        (fun r => decide (("cluster-api-provider-packet:cluster-id:" ++ name) ∈ r.Tags))
        = some r →
      GetIPByClusterIdentifier env ns name projectID = (r, none)) ∧
    (L.find?
        (fun r => decide (("cluster-api-provider-packet:cluster-id:" ++ name) ∈ r.Tags))
        = none →
      GetIPByClusterIdentifier env ns name projectID =
        (packngo.IPAddressReservation.zero,
          some .ErrControlPlanEndpointNotFound)) := by
  have hid : generateElasticIPIdentifier name =
      "cluster-api-provider-packet:cluster-id:" ++ name := rfl
  refine ⟨hid, ?_, ?_⟩
  · intro r hfind
    unfold GetIPByClusterIdentifier
    dsimp only
    rw [hlist]
    dsimp only
    rw [findIPByTag_eq_find, hid, hfind]
  · intro hfind
    unfold GetIPByClusterIdentifier
    dsimp only
    rw [hlist]
    dsimp only
    rw [findIPByTag_eq_find, hid, hfind]

def resOther : packngo.IPAddressReservation :=
  { Address := "147.75.0.1", Tags := ["unrelated"] }

def resCluster : packngo.IPAddressReservation :=
  { Address := "147.75.0.2"
    Tags := ["cluster-api-provider-packet:cluster-id:c1"] }

def ipEnvSample : IPEnv :=
  { requestIP := fun _ _ => (packngo.IPAddressReservation.zero, 200, none)
    listIPs := fun _ _ => .ok [resOther, resCluster]
    parseIP := fun _ => none }

theorem getIPByClusterIdentifier_first_match_witness :
    GetIPByClusterIdentifier ipEnvSample "ns" "c1" "proj" = (resCluster, none) :=
  (getIPByClusterIdentifier_first_match ipEnvSample "ns" "c1" "proj"
      [resOther, resCluster] rfl).2.1 resCluster (by decide)

def ipEnv422WithErr : IPEnv :=
  { requestIP := fun _ _ =>
      ({ Address := "147.75.1.1", Tags := [] }, 422, some "server error")
    listIPs := fun _ _ => .ok []
    parseIP := fun _ => none }

/-- C6 counterexample: a reservation request whose response reports the
unprocessable-entity status 422 together with a non-nil error value —
`CreateIP` checks the error first and passes it through, so it does not
fail with the quota message. -/
theorem createIP_422_counterexample :
    (ipEnv422WithErr.requestIP "proj"
        { typ := packngo.PublicIPv4, Quantity := 1, Facility := "fac",
          FailOnApprovalRequired := true,
          Tags := [generateElasticIPIdentifier "c1"] }).2.1
      = statusUnprocessableEntity ∧
    CreateIP ipEnv422WithErr "ns" "c1" "proj" "fac" = .error "server error" ∧
    "server error" ≠ quotaErrorMessage :=
  ⟨rfl, rfl, by decide⟩

/-- C6 (amended): when the reservation request reports the
unprocessable-entity status 422 and surfaces no error value, `CreateIP`
fails with the quota message rather than returning an address. -/
theorem createIP_422_quota (env : IPEnv)
    (ns clusterName projectID facility : String)
    (r : packngo.IPAddressReservation)
    (hreq : env.requestIP projectID
      { typ := packngo.PublicIPv4, Quantity := 1, Facility := facility,
        FailOnApprovalRequired := true,
        Tags := [generateElasticIPIdentifier clusterName] }
      = (r, statusUnprocessableEntity, none)) :
    CreateIP env ns clusterName projectID facility = .error quotaErrorMessage := by
  simp [CreateIP, hreq]

def ipEnv422NoErr : IPEnv :=
  { requestIP := fun _ _ => ({ Address := "147.75.1.2", Tags := [] }, 422, none)
    listIPs := fun _ _ => .ok []
    parseIP := fun _ => none }

theorem createIP_422_quota_witness :
    CreateIP ipEnv422NoErr "ns" "c1" "proj" "fac" = .error quotaErrorMessage :=
  createIP_422_quota ipEnv422NoErr "ns" "c1" "proj" "fac"
    { Address := "147.75.1.2", Tags := [] } rfl

end CAPP
